import Mathlib

/-!
Shallow embedding of the pubsubd broker (src/main.go): the per-subscription
unacked-message min-heap (Go container/heap semantics over a `MessageQueue`
array), id allocation, and the HTTP handler logic for /send, /pull, /ack and
/unsub. Message ids are modelled as `Nat` with explicit reduction mod 2^64
where the Go code does uint64 arithmetic; the durable message-body store is an
external collaborator and is modelled as always succeeding.
-/

namespace Pubsubd

/-- 2^64, the modulus of Go uint64 arithmetic. -/
def U64 : Nat := 2 ^ 64

/-- MessageQueue from main.go: the backing array of the min-heap of unacked
message ids. -/
abbrev MessageQueue := Array Nat

/-- `q.Swap i j` of the heap interface: exchange two slots (out-of-range
indices leave the array unchanged; all call sites stay in range). -/
def swapQ (q : MessageQueue) (i j : Nat) : MessageQueue :=
  let vi := q.getD i 0
  let vj := q.getD j 0
  (q.setD i vj).setD j vi

/-- Go container/heap `up` (sift-up) at index `j`, with explicit fuel.
Each iteration moves `j` to its parent `(j-1)/2`, strictly decreasing, so fuel
`j+1` never runs out before the loop's own exit condition. -/
def upFuel : Nat → MessageQueue → Nat → MessageQueue
  | 0, q, _ => q
  | fuel + 1, q, j =>
    let i := (j - 1) / 2
    if i = j then q
    else if q.getD j 0 < q.getD i 0 then upFuel fuel (swapQ q i j) i
    else q

/-- Go container/heap `up h j`. -/
def up (q : MessageQueue) (j : Nat) : MessageQueue := upFuel (j + 1) q j

/-- Go container/heap `down` (sift-down) from index `i` within the first `n`
slots, with explicit fuel; returns the array and the final index. Each
iteration moves `i` to a child `≥ 2*i+1`, so at most `n` iterations happen and
fuel `n` suffices (for `n = 0` the loop body never runs either way). -/
def downFuel : Nat → MessageQueue → Nat → Nat → MessageQueue × Nat
  | 0, q, i, _ => (q, i)
  | fuel + 1, q, i, n =>
    if 2 * i + 1 < n then
      let j :=
        if 2 * i + 2 < n ∧ q.getD (2 * i + 2) 0 < q.getD (2 * i + 1) 0 then
          2 * i + 2
        else 2 * i + 1
      if q.getD j 0 < q.getD i 0 then downFuel fuel (swapQ q i j) j n
      else (q, i)
    else (q, i)

/-- Go container/heap `down h i n`: resulting array, and whether the element
moved down (`i > i0`). -/
def down (q : MessageQueue) (i n : Nat) : MessageQueue × Bool :=
  let r := downFuel n q i n
  (r.1, decide (i < r.2))

/-- Go container/heap `Push(h, x)`: append then sift up from the last slot.
(`MessageQueue.Push` appends; `heap.Push` then calls `up`.) -/
def heapPush (q : MessageQueue) (x : Nat) : MessageQueue :=
  let q1 := q.push x
  up q1 (q1.size - 1)

/-- Go container/heap `Remove(h, i)`: swap slot `i` with the last slot, sift
down (or up, if the element did not move down), then pop the last slot, which
is `MessageQueue.Pop` (truncate by one). -/
def heapRemove (q : MessageQueue) (i : Nat) : MessageQueue :=
  let n := q.size - 1
  if n = i then q.pop
  else
    let q1 := swapQ q i n
    let r := down q1 i n
    let q2 := if r.2 then r.1 else up r.1 i
    q2.pop

/-- The back-to-front scan of `AckMessages` (main.go lines 174-183): fuel
`i+1` represents the Go loop index `i`; `nID` is the remaining removal budget;
membership in `ids` plays the role of the `idMap` set (duplicates collapse). -/
def ackLoop (ids : List Nat) : Nat → MessageQueue → Nat → MessageQueue
  | 0, q, _ => q
  | i + 1, q, nID =>
    if nID = 0 then q
    else if q.getD i 0 ∈ ids then ackLoop ids i (heapRemove q i) (nID - 1)
    else ackLoop ids i q nID

/-- `AckMessages(ids, sub)` from main.go: `nID` starts at `len(ids)` (the
`for range ids` count, duplicates included) and the scan starts at the last
index of the queue. -/
def ackMessages (ids : List Nat) (q : MessageQueue) : MessageQueue :=
  ackLoop ids q.size q ids.length

/-- `FindUnAckedMessageIds(sub, maxMessages)` from main.go: `n` is clamped to
the queue length from above only; `make([]uint64, n)` with negative `n` panics
(modelled as `none`); otherwise the first `n` slots of the heap array are
copied out. -/
def findUnAckedMessageIds (q : MessageQueue) (maxMessages : Int) : Option (List Nat) :=
  let n : Int := if (q.size : Int) < maxMessages then (q.size : Int) else maxMessages
  if n < 0 then none
  else some (q.toList.take n.toNat)

/-- Topic from main.go (the mutex is the concurrency guard, not state). -/
structure Topic where
  name : String
  nextMesgID : Nat
deriving DecidableEq, Repr

/-- `CreateMessageIds(nMessage)` from main.go: returns the counter's prior
value and bumps it by `nMessage`, uint64 arithmetic. -/
def createMessageIds (t : Topic) (nMessage : Nat) : Nat × Topic :=
  (t.nextMesgID, { t with nextMesgID := (t.nextMesgID + nMessage) % U64 })

/-- Subscription from main.go. -/
structure Subscription where
  name : String
  unAcked : MessageQueue
deriving DecidableEq, Repr

/-- The global `subs` map and `topic` of main.go, gathered into one state. The
Go map is modelled as an association list with unique keys (inserts happen
only after a failed lookup). -/
structure ServerState where
  topic : Topic
  subs : List (String × Subscription)
deriving DecidableEq, Repr

/-- Initial process state: empty registry, topic counter 0. -/
def initState : ServerState :=
  { topic := { name := "<default-topic>", nextMesgID := 0 }, subs := [] }

/-- `subs[name]` lookup. -/
def lookupSub : List (String × Subscription) → String → Option Subscription
  | [], _ => none
  | p :: rest, nm => if p.1 = nm then some p.2 else lookupSub rest nm

/-- `delete(subs, name)`. -/
def eraseSub : List (String × Subscription) → String → List (String × Subscription)
  | [], _ => []
  | p :: rest, nm => if p.1 = nm then eraseSub rest nm else p :: eraseSub rest nm

/-- Replace the queue stored under `nm` (the effect of `AckMessages` mutating
through the `*Subscription` pointer held in the map). -/
def updateSub : List (String × Subscription) → String → MessageQueue → List (String × Subscription)
  | [], _, _ => []
  | p :: rest, nm, q =>
    if p.1 = nm then (p.1, { p.2 with unAcked := q }) :: updateSub rest nm q
    else p :: updateSub rest nm q

/-- `validSubRegexp = ^([a-zA-Z])([a-zA-Z0-9_-])*$` from main.go. -/
def validSubName (name : String) : Bool :=
  match name.toList with
  | [] => false
  | c :: rest => c.isAlpha && rest.all fun d => d.isAlpha || d.isDigit || d == '_' || d == '-'

/-- `GetSubscription` from main.go: reject names failing the pattern, else
return the existing subscription, else create, register and return an empty
one (`heap.Init` on the empty queue is a no-op). -/
def getSubscription (s : ServerState) (name : String) : Option (Subscription × ServerState) :=
  if validSubName name then
    match lookupSub s.subs name with
    | some sub => some (sub, s)
    | none =>
      let sub : Subscription := { name := name, unAcked := #[] }
      some (sub, { s with subs := (name, sub) :: s.subs })
  else none

/-- `DestroySubscription(sub)` from main.go: delete the entry keyed by
`sub.Name`. -/
def destroySubscription (s : ServerState) (sub : Subscription) : ServerState :=
  { s with subs := eraseSub s.subs sub.name }

/-- The ids the `PutMessages` fan-out loop pushes: `for i := baseID;
i < baseID+uint64(k); i++` with uint64 wrap-around on the bound. -/
def putMessagesIds (base k : Nat) : List Nat :=
  let bound := (base + k) % U64
  if base < bound then (List.range (bound - base)).map (fun i => base + i) else []

/-- Fan one publish into one subscription's queue (`heap.Push` per id). -/
def fanOut (q : MessageQueue) (base k : Nat) : MessageQueue :=
  (putMessagesIds base k).foldl heapPush q

/-- The fan-out half of `PutMessages`: push the new ids into every registered
subscription's queue (file writes are the external store, always succeeding
here). -/
def fanOutAll : List (String × Subscription) → Nat → Nat → List (String × Subscription)
  | [], _, _ => []
  | p :: rest, base, k =>
    (p.1, { p.2 with unAcked := fanOut p.2.unAcked base k }) :: fanOutAll rest base k

/-- Outcome of one HTTP handler invocation: success (with the pulled ids, `[]`
for /ack and /unsub), a 400 client error, or a Go runtime panic. -/
inductive HandlerResult where
  | ok (ids : List Nat)
  | badRequest
  | panicked
deriving DecidableEq, Repr

/-- The /send handler: allocate ids for the batch, persist bodies (external),
fan out to every subscription. -/
def sendHandler (s : ServerState) (messages : List String) : ServerState :=
  let r := createMessageIds s.topic messages.length
  { topic := r.2, subs := fanOutAll s.subs r.1 messages.length }

/-- The /pull handler: resolve (and possibly create) the subscription first,
then parse `n` (`none` = `strconv.Atoi` failure → 400), then read the queue
(`none` from `findUnAckedMessageIds` = the negative-`make` panic). -/
def pullHandler (s : ServerState) (name : String) (nParam : Option Int) :
    HandlerResult × ServerState :=
  match getSubscription s name with
  | none => (.badRequest, s)
  | some (sub, s1) =>
    match nParam with
    | none => (.badRequest, s1)
    | some n =>
      match findUnAckedMessageIds sub.unAcked n with
      | none => (.panicked, s1)
      | some ids => (.ok ids, s1)

/-- The /ack handler: resolve (and possibly create) the subscription first,
then parse every `id` (`none` = `strconv.ParseUint` failure → 400 before any
ack), then `AckMessages`. -/
def ackHandler (s : ServerState) (name : String) (idParams : List (Option Nat)) :
    HandlerResult × ServerState :=
  match getSubscription s name with
  | none => (.badRequest, s)
  | some (sub, s1) =>
    if idParams.all (fun o => o.isSome) then
      (.ok [], { s1 with subs := updateSub s1.subs name (ackMessages (idParams.filterMap id) sub.unAcked) })
    else (.badRequest, s1)

/-- The /unsub handler: resolve (and possibly create) the subscription, then
destroy it. -/
def unsubHandler (s : ServerState) (name : String) : HandlerResult × ServerState :=
  match getSubscription s name with
  | none => (.badRequest, s)
  | some (sub, s1) => (.ok [], destroySubscription s1 sub)

/-- One client request. -/
inductive Op where
  | send (messages : List String)
  | pull (sub : String) (n : Option Int)
  | ack (sub : String) (ids : List (Option Nat))
  | unsub (sub : String)

/-- State transition of one request. -/
def step (s : ServerState) : Op → ServerState
  | .send ms => sendHandler s ms
  | .pull name n => (pullHandler s name n).2
  | .ack name ids => (ackHandler s name ids).2
  | .unsub name => (unsubHandler s name).2

/-- Run a request trace. -/
def run (ops : List Op) (s : ServerState) : ServerState := ops.foldl step s

/-- The queue currently registered under a name, if any. -/
def getQueue (s : ServerState) (nm : String) : Option MessageQueue :=
  (lookupSub s.subs nm).map (fun sub => sub.unAcked)


/-- C1: the claim that `AckMessages` removes exactly the present input ids
fails. On the heap `#[1,6,2,7,8,5]` — reachable by publishing ids 0..8 and
acking `{0,3,4}` (first conjunct) — acking `{6,7}` leaves id 6 in the queue:
`heap.Remove` at index 3 sifts the swapped-in element up, moving the value 6
from index 1 into the already-scanned index 3, where the back-to-front scan
never revisits it. -/
theorem c1_ackMessages_leaves_acked_id_present :
    ackMessages [0, 3, 4] ((List.range 9).foldl heapPush (#[] : MessageQueue)) =
      #[1, 6, 2, 7, 8, 5] ∧
    ackMessages [6, 7] #[1, 6, 2, 7, 8, 5] = #[1, 5, 2, 6, 8] ∧
    6 ∈ [6, 7] ∧
    6 ∈ (#[1, 6, 2, 7, 8, 5] : MessageQueue).toList ∧
    6 ∈ (ackMessages [6, 7] #[1, 6, 2, 7, 8, 5]).toList := by decide

/-- C3: ack is not idempotent. On the heap `#[1,6,2,7,8,5]`, acking `{6,7}`
once leaves `#[1,5,2,6,8]` (id 6 missed), while acking `{6,7}` twice removes
the leftover 6 and yields `#[1,5,2,8]`, a different queue state with
observably different pulls. -/
theorem c3_ack_twice_differs_from_ack_once :
    ackMessages [6, 7] #[1, 6, 2, 7, 8, 5] = #[1, 5, 2, 6, 8] ∧
    ackMessages [6, 7] (ackMessages [6, 7] #[1, 6, 2, 7, 8, 5]) = #[1, 5, 2, 8] ∧
    ackMessages [6, 7] (ackMessages [6, 7] #[1, 6, 2, 7, 8, 5]) ≠
      ackMessages [6, 7] #[1, 6, 2, 7, 8, 5] := by decide

/-- C2 counterexample: `FindUnAckedMessageIds` returns the first `n` slots of
the heap array, which are neither the `n` smallest ids nor ascending. On the
heap `#[1,6,2,7,8,5]`, asking for 2 returns `[1,6]` although 2 < 6 is present
and omitted, and asking for 3 returns `[1,6,2]`, which is not sorted. -/
theorem c2_counterexample :
    findUnAckedMessageIds #[1, 6, 2, 7, 8, 5] 2 = some [1, 6] ∧
    2 ∈ (#[1, 6, 2, 7, 8, 5] : MessageQueue).toList ∧
    2 < 6 ∧ 6 ∈ [1, 6] ∧ 2 ∉ [1, 6] ∧
    findUnAckedMessageIds #[1, 6, 2, 7, 8, 5] 3 = some [1, 6, 2] ∧
    ¬ List.Pairwise (· ≤ ·) [1, 6, 2] := by decide

/-- C2 (amended): for non-negative `maxCount`, `FindUnAckedMessageIds` returns
exactly the first `min maxCount size` elements of the internal heap array,
every returned id is currently present, all ids are returned when fewer than
`maxCount` are present, and `maxCount = 0` returns the empty sequence. -/
theorem c2_findUnAcked_amended (q : MessageQueue) (m : Int) (h : 0 ≤ m) :
    findUnAckedMessageIds q m = some (q.toList.take (min m.toNat q.size)) ∧
    (q.toList.take (min m.toNat q.size)).length = min m.toNat q.size ∧
    (∀ x ∈ q.toList.take (min m.toNat q.size), x ∈ q.toList) ∧
    ((q.size : Int) ≤ m → q.toList.take (min m.toNat q.size) = q.toList) ∧
    (m = 0 → q.toList.take (min m.toNat q.size) = []) := by
  have hlen : q.toList.length = q.size := by simp
  refine ⟨?_, ?_, ?_, ?_, ?_⟩
  · unfold findUnAckedMessageIds
    by_cases hlt : (q.size : Int) < m
    · have h1 : min m.toNat q.size = q.size := by omega
      have h2 : ¬ ((q.size : Int) < 0) := by omega
      simp [hlt, h2, h1]
    · have h1 : min m.toNat q.size = m.toNat := by omega
      have h2 : ¬ (m < 0) := by omega
      simp [hlt, h2, h1]
  · simp [List.length_take, hlen]
  · intro x hx
    exact List.take_subset _ _ hx
  · intro hle
    have h1 : min m.toNat q.size = q.size := by omega
    rw [h1]
    exact List.take_of_length_le (le_of_eq hlen)
  · intro hm
    subst hm
    simp

/-- C2 witness: the amended statement evaluated at the heap `#[3,7,5]` with
`maxCount = 2`. -/
theorem c2_witness :
    findUnAckedMessageIds #[3, 7, 5] 2 =
      some ((#[3, 7, 5] : MessageQueue).toList.take
        (min (Int.toNat 2) (#[3, 7, 5] : MessageQueue).size)) ∧
    ((#[3, 7, 5] : MessageQueue).toList.take
        (min (Int.toNat 2) (#[3, 7, 5] : MessageQueue).size)).length =
      min (Int.toNat 2) (#[3, 7, 5] : MessageQueue).size ∧
    (∀ x ∈ (#[3, 7, 5] : MessageQueue).toList.take
        (min (Int.toNat 2) (#[3, 7, 5] : MessageQueue).size),
      x ∈ (#[3, 7, 5] : MessageQueue).toList) ∧
    (((#[3, 7, 5] : MessageQueue).size : Int) ≤ 2 →
      (#[3, 7, 5] : MessageQueue).toList.take
        (min (Int.toNat 2) (#[3, 7, 5] : MessageQueue).size) =
      (#[3, 7, 5] : MessageQueue).toList) ∧
    ((2 : Int) = 0 →
      (#[3, 7, 5] : MessageQueue).toList.take
        (min (Int.toNat 2) (#[3, 7, 5] : MessageQueue).size) = []) :=
  c2_findUnAcked_amended #[3, 7, 5] 2 (by decide)

/-- C4 counterexample: a /pull request for a fresh, validly named subscription
with a non-integer `n` is answered 400 yet creates the subscription — the
handler resolves (and registers) the subscription before parsing `n`, so state
is mutated on an InvalidInput request. -/
theorem c4_counterexample :
    (pullHandler initState "a" none).1 = .badRequest ∧
    lookupSub initState.subs "a" = none ∧
    lookupSub (pullHandler initState "a" none).2.subs "a" =
      some { name := "a", unAcked := #[] } ∧
    (pullHandler initState "a" none).2 ≠ initState := by decide

/-- C4 (amended): a request with a malformed subscription name is rejected
with 400 and mutates nothing; a /pull with non-integer `n` or an /ack with a
non-integer `id` on a validly named subscription is rejected with 400 and
changes no queue, but may first register the (empty) named subscription,
because the handlers resolve the subscription before parsing the parameter. -/
theorem c4_invalid_input_limited_mutation (s : ServerState) (name : String)
    (idParams : List (Option Nat)) :
    (validSubName name = false →
      pullHandler s name none = (.badRequest, s) ∧
      ackHandler s name idParams = (.badRequest, s) ∧
      unsubHandler s name = (.badRequest, s)) ∧
    (validSubName name = true →
      (pullHandler s name none).1 = .badRequest ∧
      ((pullHandler s name none).2.subs = s.subs ∨
        (pullHandler s name none).2.subs =
          (name, { name := name, unAcked := #[] }) :: s.subs)) ∧
    (validSubName name = true → idParams.all (fun o => o.isSome) = false →
      (ackHandler s name idParams).1 = .badRequest ∧
      ((ackHandler s name idParams).2.subs = s.subs ∨
        (ackHandler s name idParams).2.subs =
          (name, { name := name, unAcked := #[] }) :: s.subs)) := by
  refine ⟨?_, ?_, ?_⟩
  · intro hv
    simp [pullHandler, ackHandler, unsubHandler, getSubscription, hv]
  · intro hv
    cases hl : lookupSub s.subs name with
    | some sub => simp [pullHandler, getSubscription, hv, hl]
    | none => simp [pullHandler, getSubscription, hv, hl]
  · intro hv hall
    cases hl : lookupSub s.subs name with
    | some sub => simp [ackHandler, getSubscription, hv, hl, hall]
    | none => simp [ackHandler, getSubscription, hv, hl, hall]

/-- C4 witness: the amended statement discharged at concrete requests — the
malformed name "9x" mutates nothing, and InvalidInput /pull and /ack requests
on valid names are answered 400. -/
theorem c4_witness :
    pullHandler initState "9x" none = (.badRequest, initState) ∧
    (pullHandler initState "a" none).1 = .badRequest ∧
    (ackHandler initState "a" [none]).1 = .badRequest :=
  ⟨((c4_invalid_input_limited_mutation initState "9x" []).1 (by decide)).1,
   ((c4_invalid_input_limited_mutation initState "a" []).2.1 (by decide)).1,
   ((c4_invalid_input_limited_mutation initState "a" [none]).2.2 (by decide) (by decide)).1⟩

/-- C5: pull is read-only. A second /pull on the same subscription with the
same count, with no intervening ack, publish or unsubscribe, returns exactly
the first pull result and leaves the state exactly as the first pull left it
(the only mutation a pull ever makes is registering the empty subscription on
first contact). -/
theorem c5_pull_read_only (s : ServerState) (name : String) (nParam : Option Int) :
    pullHandler (pullHandler s name nParam).2 name nParam =
      ((pullHandler s name nParam).1, (pullHandler s name nParam).2) := by
  by_cases hv : validSubName name
  · cases hl : lookupSub s.subs name with
    | some sub =>
      cases nParam with
      | none => simp [pullHandler, getSubscription, hv, hl]
      | some n =>
        cases hf : findUnAckedMessageIds sub.unAcked n with
        | none => simp [pullHandler, getSubscription, hv, hl, hf]
        | some ids => simp [pullHandler, getSubscription, hv, hl, hf]
    | none =>
      cases nParam with
      | none => simp [pullHandler, getSubscription, hv, hl, lookupSub]
      | some n =>
        cases hf : findUnAckedMessageIds (#[] : MessageQueue) n with
        | none => simp [pullHandler, getSubscription, hv, hl, lookupSub, hf]
        | some ids => simp [pullHandler, getSubscription, hv, hl, lookupSub, hf]
  · simp [pullHandler, getSubscription, hv]

/-- C6: `CreateMessageIds` returns the counter value before the call and
leaves the counter equal to the old value plus the count (uint64 arithmetic;
stated below the wrap-around bound), `count = 0` returns the current counter
and leaves the topic unchanged, and an immediately following reservation
starts exactly where this one ended — ranges are contiguous and disjoint, with
no gap and no reuse. -/
theorem c6_createMessageIds_reserves (t : Topic) (k : Nat)
    (h : t.nextMesgID + k < U64) :
    (createMessageIds t k).1 = t.nextMesgID ∧
    (createMessageIds t k).2.nextMesgID = t.nextMesgID + k ∧
    (createMessageIds t k).2.name = t.name ∧
    (k = 0 → createMessageIds t k = (t.nextMesgID, t)) ∧
    (∀ k2, (createMessageIds (createMessageIds t k).2 k2).1 = t.nextMesgID + k) := by
  have hm : (t.nextMesgID + k) % U64 = t.nextMesgID + k := Nat.mod_eq_of_lt h
  refine ⟨rfl, by simp [createMessageIds, hm], rfl, ?_, fun k2 => by simp [createMessageIds, hm]⟩
  intro hk
  subst hk
  have h0 : t.nextMesgID % U64 = t.nextMesgID := Nat.mod_eq_of_lt (by omega)
  cases t
  simp_all [createMessageIds]

/-- C6 witness: reserving 2 ids on a topic whose counter is at 5 returns base
5 and leaves the counter at 7; a following reservation starts at 7; reserving
0 ids changes nothing. -/
theorem c6_witness :
    (createMessageIds { name := "t", nextMesgID := 5 } 2).1 = 5 ∧
    (createMessageIds { name := "t", nextMesgID := 5 } 2).2.nextMesgID = 7 ∧
    (createMessageIds (createMessageIds { name := "t", nextMesgID := 5 } 2).2 4).1 = 7 ∧
    createMessageIds { name := "t", nextMesgID := 5 } 0 =
      (5, { name := "t", nextMesgID := 5 }) :=
  ⟨(c6_createMessageIds_reserves { name := "t", nextMesgID := 5 } 2 (by decide)).1,
   (c6_createMessageIds_reserves { name := "t", nextMesgID := 5 } 2 (by decide)).2.1,
   (c6_createMessageIds_reserves { name := "t", nextMesgID := 5 } 2 (by decide)).2.2.2.2 4,
   (c6_createMessageIds_reserves { name := "t", nextMesgID := 5 } 0 (by decide)).2.2.2.1 rfl⟩

lemma lookupSub_eraseSub (l : List (String × Subscription)) (nm : String) :
    lookupSub (eraseSub l nm) nm = none := by
  induction l with
  | nil => rfl
  | cons p rest ih =>
    by_cases hp : p.1 = nm
    · simp [eraseSub, hp, ih]
    · simp [eraseSub, lookupSub, hp, ih]

lemma lookupSub_mem (l : List (String × Subscription)) (nm : String)
    (sub : Subscription) (h : lookupSub l nm = some sub) : (nm, sub) ∈ l := by
  induction l with
  | nil => simp [lookupSub] at h
  | cons p rest ih =>
    by_cases hp : p.1 = nm
    · simp [lookupSub, hp] at h
      subst hp h
      exact List.mem_cons_self _ _
    · simp [lookupSub, hp] at h
      exact List.mem_cons_of_mem _ (ih h)

lemma findUnAcked_empty (n : Int) (hn : 0 ≤ n) :
    findUnAckedMessageIds #[] n = some [] := by
  simp only [findUnAckedMessageIds, Array.size_toArray, List.length_nil,
    Nat.cast_zero, Array.toList_toArray, List.take_nil, Option.some.injEq]
  split <;> simp_all

/-- C7 counterexample: the claim quantifies over every `n`, but for a negative
`n` the pull right after an unsubscribe panics in `make([]uint64, n)` instead
of returning zero messages. -/
theorem c7_counterexample :
    (unsubHandler ⟨⟨"<default-topic>", 1⟩, [("a", ⟨"a", #[0]⟩)]⟩ "a").1 = .ok [] ∧
    (pullHandler (unsubHandler ⟨⟨"<default-topic>", 1⟩, [("a", ⟨"a", #[0]⟩)]⟩ "a").2
        "a" (some (-1))).1 = .panicked ∧
    (pullHandler (unsubHandler ⟨⟨"<default-topic>", 1⟩, [("a", ⟨"a", #[0]⟩)]⟩ "a").2
        "a" (some (-1))).1 ≠ .ok [] := by decide

/-- C7 (amended): after a successful unsubscribe, an immediate pull with any
non-negative `n` returns zero messages, whatever unacked state the
subscription held before. (`hwf` is the registry representation invariant —
every entry is stored under its own name — which main.go maintains by
construction.) -/
theorem c7_unsub_then_pull_empty (s : ServerState) (name : String) (n : Int)
    (hwf : ∀ p ∈ s.subs, (p : String × Subscription).2.name = p.1)
    (hv : validSubName name = true) (hn : 0 ≤ n) :
    (pullHandler (unsubHandler s name).2 name (some n)).1 = .ok [] := by
  have key : (unsubHandler s name).2.subs = eraseSub s.subs name := by
    cases hl : lookupSub s.subs name with
    | some sub =>
      have hname : sub.name = name := hwf (name, sub) (lookupSub_mem s.subs name sub hl)
      simp [unsubHandler, getSubscription, destroySubscription, hv, hl, hname]
    | none =>
      simp [unsubHandler, getSubscription, destroySubscription, hv, hl, eraseSub]
  have hnone : lookupSub (unsubHandler s name).2.subs name = none := by
    rw [key]; exact lookupSub_eraseSub s.subs name
  simp [pullHandler, getSubscription, hv, hnone, findUnAcked_empty n hn]

/-- C7 witness: the amended statement at a concrete state holding unacked id 0
for subscription a, pulled with `n = 5` after unsubscribing. -/
theorem c7_witness :
    (pullHandler (unsubHandler ⟨⟨"<default-topic>", 1⟩, [("a", ⟨"a", #[0]⟩)]⟩ "a").2
        "a" (some 5)).1 = .ok [] :=
  c7_unsub_then_pull_empty ⟨⟨"<default-topic>", 1⟩, [("a", ⟨"a", #[0]⟩)]⟩ "a" 5
    (by decide) (by decide) (by decide)

/-- C8: the invariant fails in its "has not since been acknowledged" half.
Running the reachable trace — create subscription a, publish nine messages
(ids 0..8), ack {0,3,4}, ack {6,7} — leaves id 6 in the unacked queue of a
even though the final request acknowledged 6 and nothing re-published it. -/
theorem c8_acked_id_still_present :
    getQueue (run
      [.pull "a" (some 0),
       .send ["m0", "m1", "m2", "m3", "m4", "m5", "m6", "m7", "m8"],
       .ack "a" [some 0, some 3, some 4],
       .ack "a" [some 6, some 7]] initState) "a" = some #[1, 5, 2, 6, 8] ∧
    6 ∈ (#[1, 5, 2, 6, 8] : MessageQueue).toList := by decide

lemma findUnAcked_neg (q : MessageQueue) (n : Int) (hn : n < 0) :
    findUnAckedMessageIds q n = none := by
  have h1 : ¬ ((q.size : Int) < n) := by omega
  simp [findUnAckedMessageIds, h1, hn]

/-- C10: for every negative `maxMessages`, `FindUnAckedMessageIds` reaches
`make([]uint64, n)` with `n < 0` and panics (modelled as `none`), on every
queue state; through the /pull handler a request whose `n` parses negative
therefore panics for any valid subscription name. -/
theorem c10_negative_pull_panics (q : MessageQueue) (s : ServerState)
    (name : String) (n : Int) (hn : n < 0) (hv : validSubName name = true) :
    findUnAckedMessageIds q n = none ∧
    (pullHandler s name (some n)).1 = .panicked := by
  refine ⟨findUnAcked_neg q n hn, ?_⟩
  cases hl : lookupSub s.subs name with
  | some sub =>
    simp [pullHandler, getSubscription, hv, hl, findUnAcked_neg sub.unAcked n hn]
  | none =>
    simp [pullHandler, getSubscription, hv, hl,
      findUnAcked_neg (#[] : MessageQueue) n hn]

/-- C10 witness: a nonempty queue with `maxMessages = -3`, and a /pull request
for a with `n = -3` against the initial state. -/
theorem c10_witness :
    findUnAckedMessageIds #[4, 9] (-3) = none ∧
    (pullHandler initState "a" (some (-3))).1 = .panicked :=
  c10_negative_pull_panics #[4, 9] initState "a" (-3) (by decide) (by decide)

end Pubsubd
